import Mathlib

/-!
Verification of `salt/modules/win_status.py` (Windows minion status module).

The module is shallowly embedded: every OS facility the Python code consults
(command output, WMI process records, disk counters, the clock, hostname
resolution, the configuration store) is passed in explicitly, and Python
exceptions are modelled with `Option`/`Except`.  Python 2 semantics are used
throughout (integer `/` is floor division; `str.encode('utf-8')` on an ASCII
`str` is the identity; `None.encode` raises `AttributeError`).  Times are
modelled in whole seconds.
-/

/-- Python character classification used by `str.split()` with no argument.
Lean's `Char.isWhitespace` covers space, tab, CR and LF, which is all that
occurs in the command output this module parses. -/
def pyIsSpace (c : Char) : Bool := c.isWhitespace

/-- Result of `str.find`-style search: the least index `i ≥ start` at which
`sub` occurs in `s`, or `none` (Python `str.index` raises `ValueError`). -/
def strFind (s sub : List Char) (start : Nat) : Option Nat :=
  (List.range (s.length + 1)).find? fun i =>
    decide (start ≤ i) && sub.isPrefixOf (s.drop i)

/-- Python `sub in s` substring containment. -/
def containsSub (s sub : List Char) : Bool := (strFind s sub 0).isSome

/-- Worker for `pySplit`; `fuel` bounds the recursion and is always supplied
large enough to scan the whole string. -/
def pySplitGo (sep : List Char) : Nat → List Char → List Char → List (List Char)
  | 0, acc, _ => [acc.reverse]
  | Nat.succ fuel, acc, s =>
    if sep.isPrefixOf s && !s.isEmpty && !sep.isEmpty then
      acc.reverse :: pySplitGo sep fuel [] (s.drop sep.length)
    else
      match s with
      | [] => [acc.reverse]
      | c :: rest => pySplitGo sep fuel (c :: acc) rest

/-- Python `s.split(sep)` for a non-empty separator (keeps empty pieces). -/
def pySplit (sep s : List Char) : List (List Char) :=
  pySplitGo sep (s.length + 1) [] s

/-- Worker for `pySplitWs`. -/
def pySplitWsGo : List Char → List Char → List (List Char)
  | acc, [] => if acc.isEmpty then [] else [acc.reverse]
  | acc, c :: rest =>
    if pyIsSpace c then
      if acc.isEmpty then pySplitWsGo [] rest
      else acc.reverse :: pySplitWsGo [] rest
    else pySplitWsGo (c :: acc) rest

/-- Python `s.split()` with no argument: split on runs of whitespace,
dropping empty pieces. -/
def pySplitWs (s : List Char) : List (List Char) := pySplitWsGo [] s

/-- Python `s.rsplit(sep, 1)` restricted to a one-character separator,
returning the two pieces, or `none` when the separator does not occur
(in which case Python returns a one-element list and tuple unpacking
raises `ValueError`). -/
def rsplitOnce (sep : Char) (s : List Char) : Option (List Char × List Char) :=
  match (s.reverse).findIdx? (· == sep) with
  | none => none
  | some i => some (((s.reverse).drop (i + 1)).reverse, ((s.reverse).take i).reverse)

/-- Numeric value of an ASCII digit. -/
def digitVal (c : Char) : Option Nat :=
  if c.isDigit then some (c.toNat - 48) else none

/-- Worker for `digitsToNat`. -/
def digitsToNatGo : Nat → List Char → Option Nat
  | acc, [] => some acc
  | acc, c :: rest =>
    match digitVal c with
    | none => none
    | some d => digitsToNatGo (acc * 10 + d) rest

/-- Parse a non-empty all-digit string. -/
def digitsToNat : List Char → Option Nat
  | [] => none
  | cs => digitsToNatGo 0 cs

/-- Python whitespace stripping from both ends (`str.strip()`). -/
def pyStrip (s : List Char) : List Char :=
  ((s.dropWhile pyIsSpace).reverse.dropWhile pyIsSpace).reverse

/-- Python `int(str)`: strip surrounding whitespace, optional sign, digits;
`none` models `ValueError`. -/
def pyInt (s : List Char) : Option Int :=
  match pyStrip s with
  | '-' :: rest => (digitsToNat rest).map fun n => -(n : Int)
  | '+' :: rest => (digitsToNat rest).map fun n => (n : Int)
  | t => (digitsToNat t).map fun n => (n : Int)

/-- Python `'{0:0>2}'.format(x)` applied to an already-formatted value:
left-pad with the fill character `0` to width 2. -/
def pad2 (s : String) : String := if s.length < 2 then "0" ++ s else s

/-- The byte formatter `_byte_calc` (win_status.py lines 291-302), with
Python 2 integer division. -/
def _byte_calc (val : Nat) : String :=
  if val < 1024 then toString val ++ "B"
  else if val < 1038336 then toString (val / 1024) ++ "KB"
  else if val < 1073741824 then toString (val / 1038336) ++ "MB"
  else if val < 1099511627776 then toString (val / 1073741824) ++ "GB"
  else toString (val / 1099511627776) ++ "TB"

/-- The `cpuload` adapter (lines 57-81), with the `wmic cpu` output supplied
as `out`.  `none` models the `ValueError`/`IndexError` the positional parse
can raise: `info[0].index('LoadPercentage')`, `info[1]`,
`info[1].index(' ', column+1)`, and the final `int(...)`. -/
def cpuload (out : String) : Option Int :=
  match pySplit ("\r\n".data) out.data with
  | [] => none
  | line0 :: rest =>
    match strFind line0 ("LoadPercentage".data) 0 with
    | none => none
    | some column =>
      match rest with
      | [] => none
      | line1 :: _ =>
        match strFind line1 [' '] (column + 1) with
        | none => none
        | some e => pyInt ((line1.drop column).take (e - column))

/-- Broken-down time as produced by `time.strptime`; only the fields the
module uses are kept. -/
structure Tm where
  tm_year : Nat
  tm_mon : Nat
  tm_mday : Nat
  tm_hour : Nat
  tm_min : Nat
  tm_sec : Nat
deriving DecidableEq

/-- Greedily take one or two ASCII digits (the CPython `_strptime` behaviour
of `%d`, `%m`, `%H`, `%M`, `%S`). -/
def takeNum2 : List Char → Option (Nat × List Char)
  | [] => none
  | c1 :: rest =>
    match digitVal c1 with
    | none => none
    | some d1 =>
      match rest with
      | [] => some (d1, [])
      | c2 :: rest2 =>
        match digitVal c2 with
        | none => some (d1, rest)
        | some d2 => some (d1 * 10 + d2, rest2)

/-- Take exactly four ASCII digits (`%Y`). -/
def takeNum4 : List Char → Option (Nat × List Char)
  | c1 :: c2 :: c3 :: c4 :: rest =>
    match digitVal c1, digitVal c2, digitVal c3, digitVal c4 with
    | some d1, some d2, some d3, some d4 =>
      some (((d1 * 10 + d2) * 10 + d3) * 10 + d4, rest)
    | _, _, _, _ => none
  | _ => none

/-- Consume one expected literal character. -/
def expectChar (c : Char) : List Char → Option (List Char)
  | [] => none
  | x :: rest => if x == c then some rest else none

/-- CPython `time.strptime(s, '%d/%m/%Y %H:%M:%S')` for the one fixed format
the module uses, including the range checks `_strptime` performs; `none`
models `ValueError` (also raised on trailing input). -/
def strptimeDMY (s : List Char) : Option Tm := do
  let (d, s) ← takeNum2 s
  let s ← expectChar '/' s
  let (m, s) ← takeNum2 s
  let s ← expectChar '/' s
  let (y, s) ← takeNum4 s
  let s ← expectChar ' ' s
  let (hh, s) ← takeNum2 s
  let s ← expectChar ':' s
  let (mm, s) ← takeNum2 s
  let s ← expectChar ':' s
  let (ss, s) ← takeNum2 s
  if s = [] ∧ 1 ≤ d ∧ d ≤ 31 ∧ 1 ≤ m ∧ m ≤ 12 ∧ hh ≤ 23 ∧ mm ≤ 59 ∧ ss ≤ 61 then
    some ⟨y, m, d, hh, mm, ss⟩
  else none

/-- The human-readable branch of `uptime` (lines 227-249): Python 2 integer
arithmetic on the whole-second uptime.  Python floor division and sign-of-
divisor `%` coincide with Lean's Euclidean `Int` division for the positive
divisors used here. -/
def uptimeHuman (elapsed : Int) : String :=
  let seconds := elapsed % 60
  let u1 := elapsed / 60
  let minutes := u1 % 60
  let u2 := u1 / 60
  let hours := u2 % 24
  let days := u2 / 24
  let ret := pad2 (toString hours) ++ ":" ++ pad2 (toString minutes) ++ ":" ++ pad2 (toString seconds)
  let ret1 := if days > 0 then "Days: " ++ toString (days % 365) ++ " " ++ ret else ret
  if days > 365 then "Years: " ++ toString (days / 365) ++ " " ++ ret1 else ret1

/-- The `uptime` adapter (lines 187-252).  `outs` is the `net stats srv`
output, `now` the current epoch time in seconds, and `mkt` the C library
`mktime` (local-time dependent, hence abstract).  The scan keeps the last
line containing the lowercase marker `"Statistics since"`; the slice constant
is the length of the differently-capitalised literal `'Statistics Since '`
exactly as in the source.  `none` models the `ValueError` from
`time.strptime`. -/
def uptime (outs : String) (now : Int) (mkt : Tm → Int) (human_readable : Bool) :
    Option (Int ⊕ String) :=
  let lines := pySplit ("\r\n".data) outs.data
  let stats_line :=
    lines.foldl (fun acc line => if containsSub line ("Statistics since".data) then line else acc) []
  let startup := stats_line.drop ("Statistics Since ".data.length)
  match strptimeDMY startup with
  | none => none
  | some tm =>
    let up := now - mkt tm
    if human_readable then some (Sum.inr (uptimeHuman up)) else some (Sum.inl up)

/-- Python exceptions that can arise in the process-information code. -/
inductive PyExc
  | comError
  | attributeError
  | valueError
  | indexError
deriving DecidableEq

/-- Messages this module logs. -/
inductive LogMsg
  | failedNetstat
  | ownerWarning (pid : Nat) (error_code : Option Int)
deriving DecidableEq

/-- The owner dictionary built by `_get_process_owner`; `none` means the key
is absent from the Python dict. -/
structure Owner where
  user : Option String
  user_domain : Option String
deriving DecidableEq

/-- A WMI `win32_process` record.  `getOwner` is the result of the
`GetOwner()` call: either a raised exception, or the `(domain, return_value,
user)` triple, in which `domain`/`user` may be `None`. -/
structure ProcHandle where
  processId : Nat
  commandLine : Option String
  name : String
  getOwner : Except PyExc (Option String × Int × Option String)

/-- Python truthiness of an optional string (`None` and `''` are falsy). -/
def pyTruthyStr : Option String → Bool
  | none => false
  | some s => !(s == "")

/-- Python truthiness of the `error_code` local (`None` and `0` are falsy). -/
def pyTruthyEc : Option Int → Bool
  | none => false
  | some e => !(e == 0)

/-- The `try` block of `_get_process_owner` (lines 272-277): returns the
owner dict built so far together with the final values of the `domain`,
`error_code`, `user` locals.  `None.encode('utf-8')` raises
`AttributeError` after the tuple assignment, so a `None` user leaves the
dict empty and a `None` domain leaves only the `user` key set. -/
def tryBlock (r : Except PyExc (Option String × Int × Option String)) :
    Owner × Option String × Option Int × Option String :=
  match r with
  | Except.error _ => (⟨none, none⟩, none, none, none)
  | Except.ok (d, ec, u) =>
    match u with
    | none => (⟨none, none⟩, d, some ec, none)
    | some us =>
      match d with
      | none => (⟨some us, none⟩, none, some ec, some us)
      | some ds => (⟨some us, some ds⟩, some ds, some ec, some us)

/-- The `error_code` local after the `try` block. -/
def ecLocal (r : Except PyExc (Option String × Int × Option String)) : Option Int :=
  (tryBlock r).2.2.1

/-- The `user` local after the `try` block. -/
def userLocal (r : Except PyExc (Option String × Int × Option String)) : Option String :=
  (tryBlock r).2.2.2

/-- `_get_process_owner` (lines 269-288).  The result pairs the returned
owner dict with the warnings logged.  The `Except` layer records that the
code after the `try` could in principle raise (the re-encode of a `None`
field); the theorems show this never happens. -/
def _get_process_owner (p : ProcHandle) : Except PyExc (Owner × List LogMsg) :=
  match tryBlock p.getOwner with
  | (owner, domain, ec, user) =>
    if !pyTruthyEc ec && pyTruthyStr user && pyTruthyStr domain then
      match user, domain with
      | some us, some ds => Except.ok (⟨some us, some ds⟩, [])
      | _, _ => Except.error PyExc.attributeError
    else if [0, 4].contains p.processId && ec == some 2 then
      Except.ok (⟨some "SYSTEM", some "NT AUTHORITY"⟩, [])
    else
      Except.ok (owner, [LogMsg.ownerWarning p.processId ec])

/-- The per-process entry returned by `_get_process_info`. -/
structure ProcInfo where
  cmd : String
  name : String
  user : Option String
  user_domain : Option String
deriving DecidableEq

/-- `_get_process_info` (lines 255-266): `(proc.CommandLine or '')` turns a
`None` command line into the empty string; the owner dict is merged in via
`**`. -/
def _get_process_info (p : ProcHandle) : Except PyExc (ProcInfo × List LogMsg) :=
  match _get_process_owner p with
  | Except.error e => Except.error e
  | Except.ok (o, lg) =>
    Except.ok (⟨(p.commandLine).getD "", p.name, o.user, o.user_domain⟩, lg)

/-- Failure modes of `subprocess.check_output`: a non-zero exit
(`CalledProcessError`) or inability to start the command (`OSError`). -/
inductive CmdErr
  | calledProcessError
  | startError
deriving DecidableEq

/-- Python exceptions that can arise in the master-connectivity check. -/
inductive PyErr
  | cmdFailed (e : CmdErr)
  | valueError
  | indexError
deriving DecidableEq

/-- Python `set.add` on a list kept free of duplicates. -/
def setAdd (s : List (List Char)) (x : List Char) : List (List Char) :=
  if s.contains x then s else s ++ [x]

/-- The per-line loop of `_win_remotes_on` (lines 347-356): keep lines
containing `ESTABLISHED`, take `chunks[2]`, `rsplit(':', 1)` it, and collect
the host when the port matches. -/
def winRemotesLines : List (List Char) → Int → List (List Char) →
    Except PyErr (List (List Char))
  | [], _, remotes => Except.ok remotes
  | line :: rest, port, remotes =>
    if !containsSub line ("ESTABLISHED".data) then winRemotesLines rest port remotes
    else
      match (pySplitWs line).get? 2 with
      | none => Except.error PyErr.indexError
      | some chunk2 =>
        match rsplitOnce ':' chunk2 with
        | none => Except.error PyErr.valueError
        | some (host, portStr) =>
          match pyInt portStr with
          | none => Except.error PyErr.valueError
          | some p =>
            if p != port then winRemotesLines rest port remotes
            else winRemotesLines rest port (setAdd remotes host)

/-- `_win_remotes_on` (lines 321-356).  `netstat` is the outcome of
`subprocess.check_output(['netstat', '-n', '-p', 'TCP'])`.  A
`CalledProcessError` is logged (`Failed netstat`) and re-raised; an `OSError`
is not caught by the `except` clause and propagates without a log line. -/
def _win_remotes_on (netstat : Except CmdErr String) (port : Int) :
    Except PyErr (List (List Char)) × List LogMsg :=
  match netstat with
  | Except.error CmdErr.calledProcessError =>
    (Except.error (PyErr.cmdFailed CmdErr.calledProcessError), [LogMsg.failedNetstat])
  | Except.error CmdErr.startError =>
    (Except.error (PyErr.cmdFailed CmdErr.startError), [])
  | Except.ok data =>
    (winRemotesLines (pySplit ['\n'] data.data) port [], [])

/-- Resolution of the configured publish port (lines 358-363): the default
4505 unless `config.get('publish_port')` is non-empty, in which case it is
passed through `int(...)`. -/
def publishPortOf (cfg : String) : Option Int :=
  if cfg == "" then some 4505 else pyInt cfg.data

/-- An event fired on the minion event bus: the `{'master': master}` payload
and the tag. -/
structure Event where
  payloadMaster : Option String
  tag : String
deriving DecidableEq

/-- The event-dispatch decision of `master` (lines 375-386), given the
caller's `connected` flag and whether the resolved master address is present
among the established remotes. -/
def masterEvents (connected present : Bool) (masterArg : Option String) : List Event :=
  if connected then
    if present then [] else [⟨masterArg, "__master_disconnected"⟩]
  else
    if present then [⟨masterArg, "__master_connected"⟩] else []

/-- Membership test `master_ip in ips`: a `None` `master_ip` is never a
member of a set of strings. -/
def ipPresent (masterIp : Option String) (ips : List (List Char)) : Bool :=
  match masterIp with
  | none => false
  | some ip => ips.contains ip.data

/-- The `master` function (lines 305-386).  `resolve` embeds
`salt.utils.network.host_to_ip`, `cfg` the `publish_port` configuration
value, `netstat` the subprocess outcome, `masterArg` and `connected` the
call arguments.  The result pairs the outcome (the list of events fired, or
the propagated exception) with the log lines written. -/
def master (resolve : String → Option String) (cfg : String)
    (netstat : Except CmdErr String) (masterArg : Option String) (connected : Bool) :
    Except PyErr (List Event) × List LogMsg :=
  match publishPortOf cfg with
  | none => (Except.error PyErr.valueError, [])
  | some port =>
    let master_ip := masterArg.bind resolve
    match _win_remotes_on netstat port with
    | (Except.error e, lg) => (Except.error e, lg)
    | (Except.ok ips, lg) =>
      (Except.ok (masterEvents connected (ipPresent master_ip ips) masterArg), lg)

/-- The events actually fired by a call to `master`: none when an exception
propagates. -/
def firedEvents (r : Except PyErr (List Event) × List LogMsg) : List Event :=
  match r.1 with
  | Except.ok evs => evs
  | Except.error _ => []

/-- A fixed snapshot of everything the OS reports to the query adapters:
`wmic cpu` output, `net stats srv` output, the clock and `mktime`, the disk
counters per path, the WMI process records, and the working set of the salt
process. -/
structure OSState where
  wmicCpuOut : String
  netStatsOut : String
  now : Int
  mktime : Tm → Int
  disk : String → Option (Nat × Nat)
  processes : List ProcHandle
  saltWorkingSet : Nat

/-- The `{total, used, free}` triple returned by `diskusage`. -/
structure DiskVals (α : Type) where
  total : α
  used : α
  free : α
deriving DecidableEq

/-- Raw or human-readable disk usage. -/
inductive DiskRet
  | raw (d : DiskVals Nat)
  | human (d : DiskVals String)
deriving DecidableEq

/-- `diskusage` (lines 84-124): a falsy path (absent or empty) defaults to
`c:/`; `disk` yields `(total, free)` for a path or `none` when
`GetDiskFreeSpaceEx` fails (`WinError` raised, modelled as `none`). -/
def diskusage (disk : String → Option (Nat × Nat)) (human_readable : Bool)
    (path : Option String) : Option DiskRet :=
  let p := match path with
    | none => "c:/"
    | some s => if s == "" then "c:/" else s
  match disk p with
  | none => none
  | some (total, free) =>
    let used := total - free
    some (if human_readable then
      DiskRet.human ⟨_byte_calc total, _byte_calc used, _byte_calc free⟩
    else DiskRet.raw ⟨total, used, free⟩)

/-- Python dict insertion keyed by PID (later writes overwrite). -/
def dictInsert (k : Nat) (v : ProcInfo) : List (Nat × ProcInfo) → List (Nat × ProcInfo)
  | [] => [(k, v)]
  | (k0, v0) :: rest =>
    if k0 == k then (k, v) :: rest else (k0, v0) :: dictInsert k v rest

/-- The per-process loop of `procs`. -/
def procsGo : List ProcHandle → List (Nat × ProcInfo) → List LogMsg →
    Except PyExc (List (Nat × ProcInfo) × List LogMsg)
  | [], acc, lg => Except.ok (acc, lg)
  | p :: rest, acc, lg =>
    match _get_process_info p with
    | Except.error e => Except.error e
    | Except.ok (info, lg2) => procsGo rest (dictInsert p.processId info acc) (lg ++ lg2)

/-- `procs` (lines 127-156): the count fast path, or the PID-keyed map of
process entries. -/
def procs (processes : List ProcHandle) (count : Bool) :
    Except PyExc ((Nat ⊕ List (Nat × ProcInfo)) × List LogMsg) :=
  if count then Except.ok (Sum.inl processes.length, [])
  else
    match procsGo processes [] [] with
    | Except.error e => Except.error e
    | Except.ok (m, lg) => Except.ok (Sum.inr m, lg)

/-- `saltmem` (lines 159-184): the working set of the current process, raw
or through the byte formatter. -/
def saltmem (workingSet : Nat) (human_readable : Bool) : Nat ⊕ String :=
  if human_readable then Sum.inr (_byte_calc workingSet) else Sum.inl workingSet

/-- The `cpuload` adapter applied to a fixed OS snapshot. -/
def cpuloadA (w : OSState) : Option Int := cpuload w.wmicCpuOut

/-- The `diskusage` adapter applied to a fixed OS snapshot. -/
def diskusageA (human_readable : Bool) (path : Option String) (w : OSState) : Option DiskRet :=
  diskusage w.disk human_readable path

/-- The `procs` adapter applied to a fixed OS snapshot. -/
def procsA (count : Bool) (w : OSState) :
    Except PyExc ((Nat ⊕ List (Nat × ProcInfo)) × List LogMsg) :=
  procs w.processes count

/-- The `saltmem` adapter applied to a fixed OS snapshot. -/
def saltmemA (human_readable : Bool) (w : OSState) : Nat ⊕ String :=
  saltmem w.saltWorkingSet human_readable

/-- The `uptime` adapter applied to a fixed OS snapshot. -/
def uptimeA (human_readable : Bool) (w : OSState) : Option (Int ⊕ String) :=
  uptime w.netStatsOut w.now w.mktime human_readable

/-- Two successive calls of an adapter on the same snapshot. -/
def callTwice {α β : Type} (f : α → β) (x : α) : β × β := (f x, f x)

/-- The degenerate outcomes of the owner lookup named by the specification:
the call raises, or a returned `user`/`domain` field is falsy (`None` or the
empty string). -/
def ownerLookupDegenerate (r : Except PyExc (Option String × Int × Option String)) : Prop :=
  (∃ e, r = Except.error e) ∨
  (∃ d ec u, r = Except.ok (d, ec, u) ∧ (pyTruthyStr u = false ∨ pyTruthyStr d = false))

/-- The `netstat -n -p TCP` sample from the module's own docstring, with one
established connection to the master publish port. -/
def sampleNetstat : String :=
  "  Proto  Local Address          Foreign Address        State\n  TCP    10.1.1.26:3389         10.1.1.1:4505          ESTABLISHED\n"

/-- C2: `_byte_calc` selects exactly one unit suffix by the fixed
thresholds: `B` below 1024, `KB` below 1038336 (dividing by 1024), `MB`
below 1073741824, `GB` below 1099511627776, `TB` otherwise; in particular
`_byte_calc 0 = "0B"`, `_byte_calc 1023 = "1023B"`, and `_byte_calc 1024`
takes the KB branch, dividing by 1024. -/
theorem byte_calc_thresholds (v : Nat) :
    (v < 1024 → _byte_calc v = toString v ++ "B") ∧
    (1024 ≤ v → v < 1038336 → _byte_calc v = toString (v / 1024) ++ "KB") ∧
    (1038336 ≤ v → v < 1073741824 → _byte_calc v = toString (v / 1038336) ++ "MB") ∧
    (1073741824 ≤ v → v < 1099511627776 → _byte_calc v = toString (v / 1073741824) ++ "GB") ∧
    (1099511627776 ≤ v → _byte_calc v = toString (v / 1099511627776) ++ "TB") ∧
    _byte_calc 0 = "0B" ∧ _byte_calc 1023 = "1023B" ∧
    _byte_calc 1024 = toString (1024 / 1024) ++ "KB" := by
  refine ⟨?_, ?_, ?_, ?_, ?_, rfl, rfl, rfl⟩
  · intro h
    unfold _byte_calc
    rw [if_pos h]
  · intro h1 h2
    unfold _byte_calc
    rw [if_neg (by omega), if_pos h2]
  · intro h1 h2
    unfold _byte_calc
    rw [if_neg (by omega), if_neg (by omega), if_pos h2]
  · intro h1 h2
    unfold _byte_calc
    rw [if_neg (by omega), if_neg (by omega), if_neg (by omega), if_pos h2]
  · intro h1
    unfold _byte_calc
    rw [if_neg (by omega), if_neg (by omega), if_neg (by omega), if_neg (by omega)]

/-- Witness for C2 at a concrete input in the KB band. -/
theorem byte_calc_thresholds_witness :
    _byte_calc 2048 = toString (2048 / 1024) ++ "KB" :=
  (byte_calc_thresholds 2048).2.1 (by omega) (by omega)

/-- C3 counterexample: on the sample output
`"Node,CPU,LoadPercentage\r\n,0,37 \r\n"` the header token sits at column 9,
but the data line `,0,37 ` has only 6 characters, so the search for a space
starting at column 10 fails (`ValueError`) and `cpuload` raises instead of
returning 37. -/
theorem cpuload_sample_cex :
    cpuload "Node,CPU,LoadPercentage\r\n,0,37 \r\n" = none ∧
    cpuload "Node,CPU,LoadPercentage\r\n,0,37 \r\n" ≠ some 37 :=
  ⟨rfl, by decide⟩

/-- C3 amended: on the comma-separated sample `cpuload` fails, because the
space search begins past the end of the short data line; the column-wise
extraction returns 37 only when the digits of the data line are aligned
under the `LoadPercentage` header and followed by a space, as in real
fixed-width `wmic cpu` output. -/
theorem cpuload_sample_amended :
    cpuload "Node,CPU,LoadPercentage\r\n,0,37 \r\n" = none ∧
    cpuload "Node,CPU,LoadPercentage\r\n         37 \r\n" = some 37 :=
  ⟨rfl, rfl⟩

/-- C5 counterexample: at exactly 365 elapsed days the code's `uptime > 365`
test is false, so no `Years:` prefix is produced (the output is
`"Days: 0 00:00:00"`), although the claim requires one at ≥ 365 days. -/
theorem uptime_human_cex :
    uptimeHuman (365 * 86400) = "Days: 0 00:00:00" ∧
    (uptimeHuman (365 * 86400)).data.take 6 ≠ "Years:".data :=
  ⟨by decide, by decide⟩

/-- C5 amended: `uptimeHuman` formats `HH:MM:SS` from the modulo/division
decomposition, prefixes `Days: N` (with `N = days % 365`) when at least one
full day has elapsed, and prefixes `Years: N` (with `N = days / 365`) only
when strictly more than 365 full days have elapsed. -/
theorem uptime_human_amended (t : Int) :
    uptimeHuman t =
      (if t / 86400 > 365 then "Years: " ++ toString (t / 86400 / 365) ++ " " else "") ++
      (if t / 86400 > 0 then "Days: " ++ toString (t / 86400 % 365) ++ " " else "") ++
      (pad2 (toString (t / 3600 % 24)) ++ ":" ++ pad2 (toString (t / 60 % 60)) ++ ":" ++
        pad2 (toString (t % 60))) := by
  have h1 : t / 60 / 60 = t / 3600 := by omega
  have h2 : t / 3600 / 24 = t / 86400 := by omega
  simp only [uptimeHuman, h1, h2]
  split_ifs with hy hd hd
  · simp [String.append_assoc]
  · omega
  · simp [String.append_assoc]
  · simp [String.append_assoc]

/-- C4 counterexample: the code scans for the lowercase marker
`"Statistics since"`, which the claim's line
`"Statistics Since 1/1/2020 00:00:00"` (capital S) does not contain, so no
line matches, the empty string is sliced and `time.strptime` raises; no
elapsed-seconds value is returned. -/
theorem uptime_sample_cex :
    uptime "Statistics Since 1/1/2020 00:00:00" 1577836800 (fun _ => 0) false = none :=
  rfl

/-- C4 amended: the marker the code searches for is the lowercase
`"Statistics since"`.  With the capital-S line of the claim `uptime` fails;
with the lowercase line it extracts the trailing timestamp, parses it with
`%d/%m/%Y %H:%M:%S`, converts it with `mktime`, and returns exactly
`now - epoch`, for every current time and every local-time conversion. -/
theorem uptime_marker_amended (now : Int) (mkt : Tm → Int) :
    uptime "Statistics Since 1/1/2020 00:00:00" now mkt false = none ∧
    uptime "Statistics since 1/1/2020 00:00:00" now mkt false =
      some (Sum.inl (now - mkt ⟨2020, 1, 1, 0, 0, 0⟩)) :=
  ⟨rfl, rfl⟩

/-- C1: for every call to `master`, if `connected` is true and the resolved
master address is absent from the established remotes on the publish port,
exactly one `__master_disconnected` event fires with payload
`{master: <identifier>}`; if `connected` is false and the address is
present, exactly one `__master_connected` event fires with the same
payload; otherwise no event fires. -/
theorem master_event_dispatch
    (resolve : String → Option String) (cfg : String) (netstat : Except CmdErr String)
    (masterArg : Option String) (connected : Bool) (port : Int)
    (ips : List (List Char)) (lg : List LogMsg)
    (hport : publishPortOf cfg = some port)
    (hips : _win_remotes_on netstat port = (Except.ok ips, lg)) :
    (connected = true → ipPresent (masterArg.bind resolve) ips = false →
      firedEvents (master resolve cfg netstat masterArg connected) =
        [⟨masterArg, "__master_disconnected"⟩]) ∧
    (connected = false → ipPresent (masterArg.bind resolve) ips = true →
      firedEvents (master resolve cfg netstat masterArg connected) =
        [⟨masterArg, "__master_connected"⟩]) ∧
    ((connected = true ∧ ipPresent (masterArg.bind resolve) ips = true) ∨
     (connected = false ∧ ipPresent (masterArg.bind resolve) ips = false) →
      firedEvents (master resolve cfg netstat masterArg connected) = []) := by
  refine ⟨?_, ?_, ?_⟩
  · intro hc hp
    simp [master, firedEvents, masterEvents, hport, hips, hc, hp]
  · intro hc hp
    simp [master, firedEvents, masterEvents, hport, hips, hc, hp]
  · rintro (⟨hc, hp⟩ | ⟨hc, hp⟩) <;>
      simp [master, firedEvents, masterEvents, hport, hips, hc, hp]

set_option maxRecDepth 8192 in
/-- Witness for C1: the specification's own example, with the docstring
netstat snapshot (established connection to 10.1.1.1:4505), expected master
10.1.1.1, caller state `connected=False`: exactly one `__master_connected`
event with payload `{master: "10.1.1.1"}`. -/
theorem master_event_dispatch_witness :
    firedEvents (master (fun s => some s) "" (Except.ok sampleNetstat)
        (some "10.1.1.1") false) =
      [⟨some "10.1.1.1", "__master_connected"⟩] :=
  (master_event_dispatch (fun s => some s) "" (Except.ok sampleNetstat)
      (some "10.1.1.1") false 4505 ["10.1.1.1".data] [] rfl rfl).2.1 rfl rfl

/-- Helper: the event-dispatch decision never produces more than one event. -/
theorem masterEvents_length_le_one (connected present : Bool) (m : Option String) :
    (masterEvents connected present m).length ≤ 1 := by
  cases connected <;> cases present <;> simp [masterEvents]

/-- C10: a single call to `master` fires at most one event, whatever the
netstat output, the resolved master address and the configured port: the
`connected` flag selects exactly one of the two checks. -/
theorem master_at_most_one_event (resolve : String → Option String) (cfg : String)
    (netstat : Except CmdErr String) (masterArg : Option String) (connected : Bool) :
    (firedEvents (master resolve cfg netstat masterArg connected)).length ≤ 1 := by
  rcases hpp : publishPortOf cfg with _ | port
  · simp [firedEvents, master, hpp]
  · rcases hw : _win_remotes_on netstat port with ⟨res, lg⟩
    rcases res with e | ips
    · simp [firedEvents, master, hpp, hw]
    · simp [firedEvents, master, hpp, hw, masterEvents_length_le_one]

/-- C8 counterexample: when the netstat subprocess cannot be started
(`OSError`), the `except CalledProcessError` clause does not apply: the
error propagates and no event fires, but nothing is logged, contradicting
the claim that every command failure is logged. -/
theorem master_cmd_failure_cex :
    (master (fun s => some s) "" (Except.error CmdErr.startError)
        (some "10.1.1.1") true).1 =
      Except.error (PyErr.cmdFailed CmdErr.startError) ∧
    (master (fun s => some s) "" (Except.error CmdErr.startError)
        (some "10.1.1.1") true).2 = [] :=
  ⟨rfl, rfl⟩

/-- C8 amended: if the connection-listing command fails, the error is
re-raised to the caller, no partial result is produced and no event fires;
the `Failed netstat` log line is written exactly when the failure is a
non-zero exit (`CalledProcessError`), not when the command cannot be
started. -/
theorem master_cmd_failure_amended (resolve : String → Option String) (cfg : String)
    (masterArg : Option String) (connected : Bool) (e : CmdErr) (port : Int)
    (hport : publishPortOf cfg = some port) :
    (master resolve cfg (Except.error e) masterArg connected).1 =
      Except.error (PyErr.cmdFailed e) ∧
    firedEvents (master resolve cfg (Except.error e) masterArg connected) = [] ∧
    ((master resolve cfg (Except.error e) masterArg connected).2 =
        [LogMsg.failedNetstat] ↔ e = CmdErr.calledProcessError) := by
  cases e <;> simp [master, _win_remotes_on, firedEvents, hport]

/-- Witness for C8 amended: a non-zero netstat exit is logged and
re-raised, with no event fired. -/
theorem master_cmd_failure_amended_witness :
    (master (fun s => some s) "" (Except.error CmdErr.calledProcessError)
        (some "10.1.1.1") true).1 =
      Except.error (PyErr.cmdFailed CmdErr.calledProcessError) ∧
    firedEvents (master (fun s => some s) "" (Except.error CmdErr.calledProcessError)
        (some "10.1.1.1") true) = [] ∧
    ((master (fun s => some s) "" (Except.error CmdErr.calledProcessError)
        (some "10.1.1.1") true).2 = [LogMsg.failedNetstat] ↔
      CmdErr.calledProcessError = CmdErr.calledProcessError) :=
  master_cmd_failure_amended (fun s => some s) "" (some "10.1.1.1") true
    CmdErr.calledProcessError 4505 rfl

/-- C9: every query adapter is a pure function of the fixed OS snapshot:
calling any of `cpuload`, `diskusage`, `procs`, `saltmem`, `uptime` twice
with unchanged OS state yields identical results.  The embedding threads
every OS dependency through `OSState` explicitly; the module keeps no other
state between calls. -/
theorem query_adapters_idempotent (w : OSState) (human_readable count : Bool)
    (path : Option String) :
    (callTwice cpuloadA w).1 = (callTwice cpuloadA w).2 ∧
    (callTwice (diskusageA human_readable path) w).1 =
      (callTwice (diskusageA human_readable path) w).2 ∧
    (callTwice (procsA count) w).1 = (callTwice (procsA count) w).2 ∧
    (callTwice (saltmemA human_readable) w).1 =
      (callTwice (saltmemA human_readable) w).2 ∧
    (callTwice (uptimeA human_readable) w).1 = (callTwice (uptimeA human_readable) w).2 :=
  ⟨rfl, rfl, rfl, rfl, rfl⟩

/-- C7: whatever exception the `GetOwner` call raises, `_get_process_owner`
absorbs it: the function returns normally with the owner fields missing and
a warning logged, and `_get_process_info` therefore also returns the entry
with only `cmd` and `name`. -/
theorem owner_exception_absorbed (p : ProcHandle) (exc : PyExc)
    (h : p.getOwner = Except.error exc) :
    _get_process_owner p =
      Except.ok (⟨none, none⟩, [LogMsg.ownerWarning p.processId none]) ∧
    _get_process_info p =
      Except.ok (⟨(p.commandLine).getD "", p.name, none, none⟩,
        [LogMsg.ownerWarning p.processId none]) := by
  have h1 : _get_process_owner p =
      Except.ok (⟨none, none⟩, [LogMsg.ownerWarning p.processId none]) := by
    simp [_get_process_owner, tryBlock, h, pyTruthyEc, pyTruthyStr]
  exact ⟨h1, by simp [_get_process_info, h1]⟩

/-- Witness for C7 at a concrete process handle whose owner lookup raises. -/
theorem owner_exception_absorbed_witness :
    _get_process_owner ⟨7, none, "x", Except.error PyExc.comError⟩ =
      Except.ok (⟨none, none⟩, [LogMsg.ownerWarning 7 none]) ∧
    _get_process_info ⟨7, none, "x", Except.error PyExc.comError⟩ =
      Except.ok (⟨"", "x", none, none⟩, [LogMsg.ownerWarning 7 none]) :=
  owner_exception_absorbed ⟨7, none, "x", Except.error PyExc.comError⟩ PyExc.comError rfl

/-- C6 counterexample: a process with PID 1234 whose owner lookup returns
empty strings with error code 2 (a degenerate "empty fields" outcome) does
NOT omit the owner fields: the `try` block has already stored the empty
strings under `user`/`user_domain`, and they stay in the returned dict
alongside the warning, contradicting the claimed omission. -/
theorem owner_fallback_cex :
    _get_process_owner ⟨1234, none, "x", Except.ok (some "", 2, some "")⟩ =
      Except.ok (⟨some "", some ""⟩, [LogMsg.ownerWarning 1234 (some 2)]) ∧
    Owner.user ⟨some "", some ""⟩ ≠ none ∧ Owner.user_domain ⟨some "", some ""⟩ ≠ none :=
  ⟨rfl, by decide, by decide⟩

/-- C6 amended: for every process whose owner lookup fails or yields falsy
fields, PID 0 or 4 with error code 2 synthesizes exactly
`user=SYSTEM, user_domain=NT AUTHORITY`; any other PID gets a warning with
the PID and error code, and the returned dict is exactly what the `try`
block stored: owner fields are omitted when the lookup raised or returned
`None` for the user, while fields returned as (possibly empty) strings are
kept. -/
theorem owner_fallback_amended (p : ProcHandle)
    (hdeg : ownerLookupDegenerate p.getOwner) :
    ([0, 4].contains p.processId = true → ecLocal p.getOwner = some 2 →
      _get_process_owner p =
        Except.ok (⟨some "SYSTEM", some "NT AUTHORITY"⟩, [])) ∧
    ([0, 4].contains p.processId = false →
      _get_process_owner p =
        Except.ok ((tryBlock p.getOwner).1,
          [LogMsg.ownerWarning p.processId (ecLocal p.getOwner)])) ∧
    ([0, 4].contains p.processId = false → userLocal p.getOwner = none →
      _get_process_owner p =
        Except.ok (⟨none, none⟩,
          [LogMsg.ownerWarning p.processId (ecLocal p.getOwner)])) := by
  rcases hdeg with ⟨e, he⟩ | ⟨d, ec, u, he, hud⟩
  · refine ⟨?_, ?_, ?_⟩
    · intro _ hec
      rw [he] at hec
      simp [ecLocal, tryBlock] at hec
    · intro hc
      simp [_get_process_owner, ecLocal, tryBlock, he, hc, pyTruthyEc, pyTruthyStr]
    · intro hc _
      simp [_get_process_owner, ecLocal, tryBlock, he, hc, pyTruthyEc, pyTruthyStr]
  · rcases u with _ | us
    · refine ⟨?_, ?_, ?_⟩
      · intro hc hec
        rw [he] at hec
        simp only [ecLocal, tryBlock] at hec
        rw [Option.some_inj] at hec
        subst hec
        simp [_get_process_owner, tryBlock, he, hc, pyTruthyEc, pyTruthyStr]
        all_goals simp at hc
        all_goals omega
      · intro hc
        simp [_get_process_owner, ecLocal, tryBlock, he, hc, pyTruthyEc, pyTruthyStr]
        all_goals simp at hc
        all_goals omega
      · intro hc _
        simp [_get_process_owner, ecLocal, tryBlock, he, hc, pyTruthyEc, pyTruthyStr]
        all_goals simp at hc
        all_goals omega
    · rcases d with _ | ds
      · refine ⟨?_, ?_, ?_⟩
        · intro hc hec
          rw [he] at hec
          simp only [ecLocal, tryBlock] at hec
          rw [Option.some_inj] at hec
          subst hec
          simp [_get_process_owner, tryBlock, he, hc, pyTruthyEc, pyTruthyStr]
          all_goals simp at hc
          all_goals omega
        · intro hc
          simp [_get_process_owner, ecLocal, tryBlock, he, hc, pyTruthyEc, pyTruthyStr]
          all_goals simp at hc
          all_goals omega
        · intro hc hu
          rw [he] at hu
          simp [userLocal, tryBlock] at hu
      · refine ⟨?_, ?_, ?_⟩
        · intro hc hec
          rw [he] at hec
          simp only [ecLocal, tryBlock] at hec
          rw [Option.some_inj] at hec
          subst hec
          rcases hud with hud | hud <;>
            (simp [_get_process_owner, tryBlock, he, hc, hud, pyTruthyEc]
             all_goals simp at hc
             all_goals omega)
        · intro hc
          rcases hud with hud | hud <;>
            (simp [_get_process_owner, ecLocal, tryBlock, he, hc, hud]
             all_goals simp at hc
             all_goals omega)
        · intro hc hu
          rw [he] at hu
          simp [userLocal, tryBlock] at hu

/-- Witness for C6 amended: PID 4 with a simulated access-denied lookup
(`GetOwner` returns `(None, 2, None)`) yields exactly the synthesized
SYSTEM owner. -/
theorem owner_fallback_amended_witness :
    _get_process_owner ⟨4, none, "x", Except.ok (none, 2, none)⟩ =
      Except.ok (⟨some "SYSTEM", some "NT AUTHORITY"⟩, []) :=
  (owner_fallback_amended ⟨4, none, "x", Except.ok (none, 2, none)⟩
      (Or.inr ⟨none, 2, none, rfl, Or.inl rfl⟩)).1 rfl rfl
